import Mathlib

/-
Verification of the transport layer (socket.ts) of the battleye rcon
client. The Socket class owns a udp socket and a registry of Connections
keyed by an id derived from the remote address and port; it demultiplexes
inbound datagrams, serializes and sends outbound packets, and bridges
send completion back into the owning Connection. The parts of the
repository that socket.ts calls into but whose sources are not available
(connection.ts, packet.ts, utils.ts, errors.ts) are modelled from the
specification and are marked as such in their doc comments.
-/

set_option maxHeartbeats 1000000

namespace Battleye

/-- Packet kinds of the battleye rcon wire protocol. -/
inductive PacketType
  | Login
  | Command
  | Message
deriving DecidableEq, Repr

/-- Wire packet as decoded or constructed by the codec. The sequence field
is an integer so that the unassigned state is representable: a fresh
Command packet carries a negative sequence until Socket.send assigns one. -/
structure Packet where
  type : PacketType
  sequence : Int
  payload : List Nat
  valid : Bool
deriving DecidableEq, Repr

/-- Kind byte of a packet on the wire. -/
def PacketType.toByte : PacketType → Nat
  | .Login => 0x00
  | .Command => 0x01
  | .Message => 0x02

/-- Modelled from the spec: the checksum is a 32 bit cyclic redundancy
value over the kind, sequence and payload region (packet.ts is not under
src/). The exact algorithm is not load bearing for any claim below; a
fixed executable 32 bit fold stands in for it. -/
def checksum32 (bytes : List Nat) : Nat :=
  bytes.foldl (fun a b => (a * 257 + b) % 2 ^ 32) 0

/-- Byte region covered by the checksum: the kind byte, the sequence byte
for Command and Message packets, then the payload. -/
def Packet.region (p : Packet) : List Nat :=
  match p.type with
  | .Login => p.type.toByte :: p.payload
  | _ => p.type.toByte :: (p.sequence.toNat % 256) :: p.payload

/-- Little endian bytes of a 32 bit value. -/
def word32 (n : Nat) : List Nat :=
  [n % 256, n / 256 % 256, n / 2 ^ 16 % 256, n / 2 ^ 24 % 256]

/-- Modelled from the spec: Packet.serialize produces the wire frame of a
fixed preamble, the 32 bit checksum, then the checksummed region
(packet.ts is not under src/). Encoding is total per the spec codec
contract, so the catch around serialize in Socket.send has no reachable
failure path in this model. -/
def Packet.serialize (p : Packet) : List Nat :=
  0x42 :: 0x45 :: word32 (checksum32 p.region) ++ p.region

/-- Failure kinds of the decode direction of the codec. Modelled from the
spec: a malformed frame length raises a DecodeError, which is a different
failure kind from a checksum mismatch. -/
inductive DecodeFailure
  | malformedLength
deriving DecidableEq, Repr

/-- Registry key derived from a remote address and port. -/
abbrev ConnId := String × Nat

/-- Errors of the transport layer. Modelled from the spec taxonomy
(errors.ts is not under src/); notRunning is the node dgram error raised
by closing an already closed socket, and transportError and connectFailed
stand for arbitrary OS level send errors and connect rejections. -/
inductive BEError
  | connectionExists
  | invalidPacket
  | unknownConnection (id : ConnId) (ip : String) (port : Nat)
  | decodeError (f : DecodeFailure)
  | notRunning
  | transportError (code : Nat)
  | connectFailed (code : Nat)
deriving DecidableEq, Repr

/-- Modelled from the spec: the observable surface of connection.ts (not
under src/) that socket.ts interacts with: the remote address and port,
the next outbound sequence number exposed by the sequence getter, and a
record of the kill invocations the connection has received. -/
structure Connection where
  ip : String
  port : Nat
  sequence : Nat
  killCount : Nat
  lastKillError : Option (Option BEError)
deriving DecidableEq, Repr

/-- Modelled from the spec: utils.hashAddress (utils.ts is not under
src/) derives the registry key deterministically from address and port;
the pair itself is deterministic and one to one as the spec requires. -/
def hashAddress (ip : String) (port : Nat) : ConnId :=
  (ip, port)

/-- Id of a connection, derived from its address and port. -/
def Connection.id (c : Connection) : ConnId :=
  hashAddress c.ip c.port

/-- Modelled from the spec: Connection.kill forces the connection into
the Disconnected state from any state, clearing pending work
(connection.ts is not under src/); the model records each invocation and
the error it was given. -/
def Connection.kill (c : Connection) (err : Option BEError) : Connection :=
  { c with killCount := c.killCount + 1, lastKillError := some err }

/-- The connection registry: id to Connection, as an association list. -/
abbrev Registry := List (ConnId × Connection)

/-- Lookup of a connection by id in the registry. -/
def lookupConn : Registry → ConnId → Option Connection
  | [], _ => none
  | (k, c) :: rest, id => if k = id then some c else lookupConn rest id

/-- Kill every registered connection with the given error: the loop of
Socket.close over Object.keys of the registry. -/
def killAll : Registry → Option BEError → Registry
  | [], _ => []
  | (k, c) :: rest, err => (k, c.kill err) :: killAll rest err

/-- State of the Socket class: the connection registry, the listening
flag of this.info, and whether the underlying dgram socket has been
closed. -/
structure Socket where
  connections : Registry
  listening : Bool
  udpClosed : Bool
deriving DecidableEq, Repr

/-- Events emitted on the Socket or on a Connection that the claims
observe: error events carrying the error value, and received events
carrying the resolved flag and the decoded packet. -/
inductive Event
  | error (e : BEError)
  | received (resolved : Bool) (p : Packet)
deriving DecidableEq, Repr

/-- Observable outcome of one call to Socket.receive: the state after the
call, the events emitted on the Socket, the events emitted on the matched
connection, whether the codec was invoked on the buffer, and whether the
connection receive handling was invoked. -/
structure ReceiveResult where
  state : Socket
  socketEvents : List Event
  connEvents : List Event
  decodeAttempted : Bool
  connReceiveInvoked : Bool
deriving DecidableEq, Repr

/-- Socket.receive, socket.ts lines 114 to 142: compute the id of the
sender, look up the owning connection; with no match emit
UnknownConnection on the Socket and drop; with a match decode the buffer
(the outcome of Packet.FROM is the decode argument, since packet.ts is
not under src/), emitting a decode error on both levels when decoding
raises and InvalidPacket on both levels when the decoded packet is not
valid; otherwise hand the packet to the connection receive handling
(connRecv, returning the resolved flag) and emit received on both. -/
def Socket.receive (s : Socket) (ip : String) (port : Nat)
    (decode : Except DecodeFailure Packet) (connRecv : Packet → Bool) :
    ReceiveResult :=
  match lookupConn s.connections (hashAddress ip port) with
  | none =>
      { state := s,
        socketEvents := [Event.error (BEError.unknownConnection (hashAddress ip port) ip port)],
        connEvents := [],
        decodeAttempted := false,
        connReceiveInvoked := false }
  | some _ =>
      match decode with
      | .error e =>
          { state := s,
            socketEvents := [Event.error (BEError.decodeError e)],
            connEvents := [Event.error (BEError.decodeError e)],
            decodeAttempted := true,
            connReceiveInvoked := false }
      | .ok packet =>
          if !packet.valid then
            { state := s,
              socketEvents := [Event.error BEError.invalidPacket],
              connEvents := [Event.error BEError.invalidPacket],
              decodeAttempted := true,
              connReceiveInvoked := false }
          else
            { state := s,
              socketEvents := [Event.received (connRecv packet) packet],
              connEvents := [Event.received (connRecv packet) packet],
              decodeAttempted := true,
              connReceiveInvoked := true }

/-- Result value a resolved send promise carries. -/
structure PacketResponse where
  bytes : Nat
  sent : Packet
  received : Option Packet
deriving DecidableEq, Repr

/-- Pending command stored on the connection for later resolution. -/
structure Pending where
  packet : Packet
  bytes : Nat
deriving DecidableEq, Repr

/-- State of the promise returned by Socket.send: still pending, resolved
with a response, or rejected with an error. -/
inductive PromiseState
  | pending
  | resolved (r : PacketResponse)
  | rejected (e : BEError)
deriving DecidableEq, Repr

/-- Observable outcome of one call to Socket.send: the promise state, a
flag for whether the OS level send was attempted, the packet after the in
place sequence mutation, the serialized buffer, the sent event emitted on
the Socket, and the pending command stored on the connection. -/
structure SendResult where
  promise : PromiseState
  osSendAttempted : Bool
  packetOut : Option Packet
  buffer : Option (List Nat)
  sentEvent : Option (Packet × List Nat × Nat)
  stored : Option Pending
deriving DecidableEq, Repr

/-- Socket.send, socket.ts lines 153 to 215: reject an invalid packet
with InvalidPacket before anything else; assign the connection sequence
to a Command packet whose sequence is not yet assigned; serialize; hand
the buffer to the OS socket, whose completion outcome is the osOutcome
argument (dgram is modelled at its interface boundary: an error or a
byte count). On error the promise rejects with that error. On success
the sent event fires; with tracking requested the pending command is
stored on the connection (the storeOutcome argument is whether the store
call of connection.ts, not under src/, raises) and the promise stays
pending; without tracking the promise resolves immediately. The dynamic
instanceof guards of the source cannot fail in this typed model. -/
def Socket.send (conn : Connection) (packet : Packet) (resolve : Bool)
    (osOutcome : Except BEError Nat) (storeOutcome : Except BEError Unit) :
    SendResult :=
  if !packet.valid then
    { promise := .rejected .invalidPacket, osSendAttempted := false,
      packetOut := none, buffer := none, sentEvent := none, stored := none }
  else
    let p := if packet.type = PacketType.Command ∧ packet.sequence < 0 then
        { packet with sequence := (conn.sequence : Int) }
      else packet
    let buffer := p.serialize
    match osOutcome with
    | .error e =>
        { promise := .rejected e, osSendAttempted := true,
          packetOut := some p, buffer := some buffer,
          sentEvent := none, stored := none }
    | .ok bytes =>
        if resolve then
          match storeOutcome with
          | .ok _ =>
              { promise := .pending, osSendAttempted := true,
                packetOut := some p, buffer := some buffer,
                sentEvent := some (p, buffer, bytes),
                stored := some { packet := p, bytes := bytes } }
          | .error e =>
              { promise := .rejected e, osSendAttempted := true,
                packetOut := some p, buffer := some buffer,
                sentEvent := some (p, buffer, bytes), stored := none }
        else
          { promise := .resolved { bytes := bytes, sent := p, received := none },
            osSendAttempted := true, packetOut := some p, buffer := some buffer,
            sentEvent := some (p, buffer, bytes), stored := none }

/-- Close of the underlying node dgram socket, modelled at its interface
boundary: closing an already closed socket raises
ERR_SOCKET_DGRAM_NOT_RUNNING; a successful close fires the close event,
whose handler clears the listening flag. -/
def dgramClose (s : Socket) : Socket × Except BEError Unit :=
  if s.udpClosed then (s, .error .notRunning)
  else ({ s with udpClosed := true, listening := false }, .ok ())

/-- Socket.close, socket.ts lines 228 to 236: kill every registered
connection with the given error, then close the dgram socket. The
registry is not cleared. -/
def Socket.close (s : Socket) (err : Option BEError) : Socket × Except BEError Unit :=
  dgramClose { s with connections := killAll s.connections err }

/-- Handler installed on the dgram error event, socket.ts lines 54 to 58:
clear the listening flag, emit the error on the Socket, then full
shutdown via close. Returns the final state, the Socket level events
emitted by the handler itself, and the outcome of the dgram close. -/
def Socket.onError (s : Socket) (err : BEError) : Socket × List Event × Except BEError Unit :=
  let r := Socket.close { s with listening := false } (some err)
  (r.1, [Event.error err], r.2)

/-- Connection details supplied by the caller. -/
structure ConnectionDetails where
  ip : String
  port : Nat
  password : String
deriving DecidableEq, Repr

/-- Modelled from the spec: the Connection constructor (connection.ts is
not under src/) derives the id from address and port and starts with a
fresh sequence counter and no kill recorded. -/
def newConnection (details : ConnectionDetails) : Connection :=
  { ip := details.ip, port := details.port, sequence := 0,
    killCount := 0, lastKillError := none }

/-- When the connect call of a freshly created connection is invoked:
synchronously when the socket is already listening, deferred to the
listening event otherwise, or never when auto connect is off or the
create call threw. -/
inductive ConnectTiming
  | immediate
  | deferred
  | never
deriving DecidableEq, Repr

/-- Observable outcome of one call to Socket.connection: the state after
the call, the thrown error or returned connection, the timing of the
connect invocation, and the error events the connect attempt emits on the
Socket when it runs. -/
structure CreateResult where
  state : Socket
  result : Except BEError Connection
  timing : ConnectTiming
  socketEvents : List Event

/-- Socket.connection, socket.ts lines 81 to 105: construct the
connection, throw ConnectionExists when the registry already holds its
id, otherwise schedule connect (immediately when listening, on the
listening event otherwise; rejections of the returned promise are caught
and re-emitted as error events on the Socket), register the connection
and return it. The outcome of the asynchronous conn.connect() promise is
the connectOutcome argument, since connection.ts is not under src/. -/
def Socket.connection (s : Socket) (details : ConnectionDetails)
    (autoConnect : Bool) (connectOutcome : Except BEError Unit) : CreateResult :=
  let conn := newConnection details
  if (lookupConn s.connections conn.id).isSome then
    { state := s, result := .error .connectionExists,
      timing := .never, socketEvents := [] }
  else
    let timing := if autoConnect then
        if s.listening then ConnectTiming.immediate else ConnectTiming.deferred
      else ConnectTiming.never
    let events : List Event :=
      match timing, connectOutcome with
      | .never, _ => []
      | _, .ok _ => []
      | _, .error e => [Event.error e]
    { state := { s with connections := (conn.id, conn) :: s.connections },
      result := .ok conn, timing := timing, socketEvents := events }

/-- Concrete sample values used by the witnesses and counterexamples. -/
def samplePacket : Packet :=
  { type := PacketType.Command, sequence := -1, payload := [104, 105], valid := true }

def sampleBadPacket : Packet :=
  { type := PacketType.Command, sequence := 0, payload := [], valid := false }

def sampleConn : Connection :=
  { ip := "1.2.3.4", port := 2302, sequence := 5, killCount := 0, lastKillError := none }

def sampleSocket : Socket :=
  { connections := [(Connection.id sampleConn, sampleConn)],
    listening := true, udpClosed := false }

def emptySocket : Socket :=
  { connections := [], listening := true, udpClosed := false }

def sampleDetails : ConnectionDetails :=
  { ip := "1.2.3.4", port := 2302, password := "pw" }

/-- Lookup after killAll: every registered connection is the killed image
of the one registered before. -/
theorem lookupConn_killAll (r : Registry) (err : Option BEError) (id : ConnId) :
    lookupConn (killAll r err) id = (lookupConn r id).map (fun c => c.kill err) := by
  induction r with
  | nil => rfl
  | cons kc rest ih =>
      obtain ⟨k, c⟩ := kc
      by_cases h : k = id
      · simp [killAll, lookupConn, h]
      · simp [killAll, lookupConn, h, ih]

/-- Claim C5: a datagram from an unregistered address and port emits
UnknownConnection at the transport level only, is dropped without any
decode attempt, never creates a connection, and leaves the state (and so
the registry) unchanged. -/
theorem receive_unknown_connection (s : Socket) (ip : String) (port : Nat)
    (decode : Except DecodeFailure Packet) (connRecv : Packet → Bool)
    (h : lookupConn s.connections (hashAddress ip port) = none) :
    Socket.receive s ip port decode connRecv =
      { state := s,
        socketEvents := [Event.error (BEError.unknownConnection (hashAddress ip port) ip port)],
        connEvents := [],
        decodeAttempted := false,
        connReceiveInvoked := false } := by
  simp [Socket.receive, h]

/-- Witness for C5 at a concrete state with an empty registry. -/
theorem receive_unknown_connection_witness :
    Socket.receive emptySocket "1.2.3.4" 2302 (Except.ok samplePacket) (fun _ => true) =
      { state := emptySocket,
        socketEvents := [Event.error (BEError.unknownConnection (hashAddress "1.2.3.4" 2302) "1.2.3.4" 2302)],
        connEvents := [],
        decodeAttempted := false,
        connReceiveInvoked := false } :=
  receive_unknown_connection emptySocket "1.2.3.4" 2302 (Except.ok samplePacket)
    (fun _ => true) rfl

/-- Claim C1 counterexample: with a registered connection and a datagram
whose decode raises, the emitted error is the decode error itself, not
InvalidPacket, at either level; so the claim that a decode failure emits
InvalidPacket on both levels is false at this input. -/
theorem receive_decode_error_not_invalid_packet :
    (Socket.receive sampleSocket "1.2.3.4" 2302
        (Except.error DecodeFailure.malformedLength) (fun _ => true)).socketEvents =
      [Event.error (BEError.decodeError DecodeFailure.malformedLength)] ∧
    Event.error BEError.invalidPacket ∉
      (Socket.receive sampleSocket "1.2.3.4" 2302
        (Except.error DecodeFailure.malformedLength) (fun _ => true)).socketEvents ∧
    Event.error BEError.invalidPacket ∉
      (Socket.receive sampleSocket "1.2.3.4" 2302
        (Except.error DecodeFailure.malformedLength) (fun _ => true)).connEvents := by
  decide

/-- Claim C1 amended: for a datagram matching a registered connection, a
decode failure is emitted as that decode error on both the Socket and the
Connection, and a decoded packet with valid false is emitted as
InvalidPacket on both; in both cases the datagram is dropped and the
connection receive handling is never invoked. -/
theorem receive_error_both_levels (s : Socket) (ip : String) (port : Nat)
    (decode : Except DecodeFailure Packet) (connRecv : Packet → Bool) (c : Connection)
    (h : lookupConn s.connections (hashAddress ip port) = some c) :
    (∀ e, decode = .error e →
      Socket.receive s ip port decode connRecv =
        { state := s,
          socketEvents := [Event.error (BEError.decodeError e)],
          connEvents := [Event.error (BEError.decodeError e)],
          decodeAttempted := true,
          connReceiveInvoked := false }) ∧
    (∀ p, decode = .ok p → p.valid = false →
      Socket.receive s ip port decode connRecv =
        { state := s,
          socketEvents := [Event.error BEError.invalidPacket],
          connEvents := [Event.error BEError.invalidPacket],
          decodeAttempted := true,
          connReceiveInvoked := false }) := by
  constructor
  · intro e he
    subst he
    simp [Socket.receive, h]
  · intro p hp hv
    subst hp
    simp [Socket.receive, h, hv]

/-- Witness for the amended C1 at a concrete registered connection and a
concrete packet with valid false. -/
theorem receive_error_both_levels_witness :
    Socket.receive sampleSocket "1.2.3.4" 2302 (Except.ok sampleBadPacket) (fun _ => true) =
      { state := sampleSocket,
        socketEvents := [Event.error BEError.invalidPacket],
        connEvents := [Event.error BEError.invalidPacket],
        decodeAttempted := true,
        connReceiveInvoked := false } :=
  (receive_error_both_levels sampleSocket "1.2.3.4" 2302 (Except.ok sampleBadPacket)
    (fun _ => true) sampleConn (by decide)).2 sampleBadPacket rfl rfl

/-- Claim C4: sending a packet with valid false rejects the promise with
InvalidPacket, hands nothing to the OS socket, and stores no pending
command on the connection. -/
theorem send_invalid_packet_rejects (conn : Connection) (packet : Packet) (resolve : Bool)
    (osOutcome : Except BEError Nat) (storeOutcome : Except BEError Unit)
    (h : packet.valid = false) :
    Socket.send conn packet resolve osOutcome storeOutcome =
      { promise := .rejected .invalidPacket, osSendAttempted := false,
        packetOut := none, buffer := none, sentEvent := none, stored := none } := by
  simp [Socket.send, h]

/-- Witness for C4 at a concrete invalid packet. -/
theorem send_invalid_packet_rejects_witness :
    Socket.send sampleConn sampleBadPacket true (Except.ok 9) (Except.ok ()) =
      { promise := .rejected .invalidPacket, osSendAttempted := false,
        packetOut := none, buffer := none, sentEvent := none, stored := none } :=
  send_invalid_packet_rejects sampleConn sampleBadPacket true (Except.ok 9) (Except.ok ()) rfl

/-- Claim C6: when the OS level send completes with an error, the promise
rejects with exactly that error, no sent event is emitted, and no pending
command is stored on the connection. -/
theorem send_transport_error_rejects (conn : Connection) (packet : Packet) (resolve : Bool)
    (e : BEError) (storeOutcome : Except BEError Unit)
    (hv : packet.valid = true) :
    (Socket.send conn packet resolve (Except.error e) storeOutcome).promise =
        PromiseState.rejected e ∧
    (Socket.send conn packet resolve (Except.error e) storeOutcome).sentEvent = none ∧
    (Socket.send conn packet resolve (Except.error e) storeOutcome).stored = none := by
  simp [Socket.send, hv]

/-- Witness for C6 at a concrete packet and transport error. -/
theorem send_transport_error_rejects_witness :
    (Socket.send sampleConn samplePacket true (Except.error (BEError.transportError 3))
        (Except.ok ())).promise = PromiseState.rejected (BEError.transportError 3) :=
  (send_transport_error_rejects sampleConn samplePacket true (BEError.transportError 3)
    (Except.ok ()) rfl).1

/-- Claim C2 counterexample: after one close of a freshly opened socket,
a second close raises ERR_SOCKET_DGRAM_NOT_RUNNING from the dgram socket
and changes the state again, so close is not idempotent and the second
call does raise an error. -/
theorem close_second_call_raises :
    (Socket.close (Socket.close sampleSocket none).1 none).2 =
        Except.error BEError.notRunning ∧
    (Socket.close (Socket.close sampleSocket none).1 none).1 ≠
        (Socket.close sampleSocket none).1 :=
  ⟨rfl, by decide⟩

/-- Claim C2 amended: the first close kills every registered connection
and closes the dgram socket without error; a second close with no
intervening re-open kills every registered connection again and the
underlying dgram close raises ERR_SOCKET_DGRAM_NOT_RUNNING. -/
theorem close_then_close (s : Socket) (e1 e2 : Option BEError)
    (h : s.udpClosed = false) :
    (Socket.close s e1).2 = Except.ok () ∧
    (Socket.close s e1).1.udpClosed = true ∧
    (Socket.close s e1).1.connections = killAll s.connections e1 ∧
    (Socket.close (Socket.close s e1).1 e2).2 = Except.error BEError.notRunning ∧
    (Socket.close (Socket.close s e1).1 e2).1.connections =
      killAll (killAll s.connections e1) e2 := by
  simp [Socket.close, dgramClose, h]

/-- Witness for the amended C2 at a concrete open socket. -/
theorem close_then_close_witness :
    (Socket.close sampleSocket none).2 = Except.ok () ∧
    (Socket.close sampleSocket none).1.udpClosed = true ∧
    (Socket.close sampleSocket none).1.connections = killAll sampleSocket.connections none ∧
    (Socket.close (Socket.close sampleSocket none).1 none).2 =
        Except.error BEError.notRunning ∧
    (Socket.close (Socket.close sampleSocket none).1 none).1.connections =
      killAll (killAll sampleSocket.connections none) none :=
  close_then_close sampleSocket none none rfl

/-- Claim C3: Socket.connection throws ConnectionExists and leaves the
state unchanged when the registry already holds a connection under the id
derived from the given address and port; otherwise it registers exactly
one new connection under that id, leaving every other id untouched, and
returns it. -/
theorem connection_registers_exactly_once (s : Socket) (details : ConnectionDetails)
    (autoConnect : Bool) (out : Except BEError Unit) :
    ((lookupConn s.connections (hashAddress details.ip details.port)).isSome = true →
      (Socket.connection s details autoConnect out).result =
          Except.error BEError.connectionExists ∧
      (Socket.connection s details autoConnect out).state = s) ∧
    (lookupConn s.connections (hashAddress details.ip details.port) = none →
      (Socket.connection s details autoConnect out).result =
          Except.ok (newConnection details) ∧
      lookupConn (Socket.connection s details autoConnect out).state.connections
          (hashAddress details.ip details.port) = some (newConnection details) ∧
      ∀ id, id ≠ hashAddress details.ip details.port →
        lookupConn (Socket.connection s details autoConnect out).state.connections id =
          lookupConn s.connections id) := by
  constructor
  · intro h
    have hp : (lookupConn s.connections (details.ip, details.port)).isSome = true := h
    simp [Socket.connection, Connection.id, newConnection, hashAddress, hp]
  · intro h
    have hp : lookupConn s.connections (details.ip, details.port) = none := h
    refine ⟨?_, ?_, ?_⟩
    · simp [Socket.connection, Connection.id, newConnection, hashAddress, hp]
    · simp [Socket.connection, Connection.id, newConnection, hashAddress, hp, lookupConn]
    · intro id hid
      have hne : ¬((details.ip, details.port) = id) := fun hh => hid hh.symm
      simp [Socket.connection, Connection.id, newConnection, hashAddress, hp, lookupConn, hne]

/-- Witness for C3 at a concrete duplicate registration. -/
theorem connection_registers_exactly_once_witness :
    (Socket.connection sampleSocket sampleDetails true (Except.ok ())).result =
        Except.error BEError.connectionExists ∧
    (Socket.connection sampleSocket sampleDetails true (Except.ok ())).state =
        sampleSocket :=
  (connection_registers_exactly_once sampleSocket sampleDetails true (Except.ok ())).1
    (by decide)

/-- Claim C7: for a valid packet, a Command packet with an unassigned
(negative) sequence is given the connection's next sequence number before
serialization, so the serialized buffer is the frame of the updated
packet; any other packet is serialized and sent with its sequence
unchanged. -/
theorem send_assigns_sequence (conn : Connection) (packet : Packet) (resolve : Bool)
    (osOutcome : Except BEError Nat) (storeOutcome : Except BEError Unit)
    (hv : packet.valid = true) :
    (packet.type = PacketType.Command → packet.sequence < 0 →
      (Socket.send conn packet resolve osOutcome storeOutcome).packetOut =
          some { packet with sequence := (conn.sequence : Int) } ∧
      (Socket.send conn packet resolve osOutcome storeOutcome).buffer =
          some (Packet.serialize { packet with sequence := (conn.sequence : Int) })) ∧
    (¬(packet.type = PacketType.Command ∧ packet.sequence < 0) →
      (Socket.send conn packet resolve osOutcome storeOutcome).packetOut = some packet ∧
      (Socket.send conn packet resolve osOutcome storeOutcome).buffer =
          some packet.serialize) := by
  constructor
  · intro ht hs
    rcases osOutcome with e | bytes <;> rcases storeOutcome with se | su <;>
      cases resolve <;> simp [Socket.send, hv, ht, hs]
  · intro hn
    rcases osOutcome with e | bytes <;> rcases storeOutcome with se | su <;>
      cases resolve <;> simp [Socket.send, hv, hn]

/-- Witness for C7 at a concrete Command packet with unassigned
sequence. -/
theorem send_assigns_sequence_witness :
    (Socket.send sampleConn samplePacket true (Except.ok 9) (Except.ok ())).packetOut =
        some { samplePacket with sequence := (sampleConn.sequence : Int) } ∧
    (Socket.send sampleConn samplePacket true (Except.ok 9) (Except.ok ())).buffer =
        some (Packet.serialize { samplePacket with sequence := (sampleConn.sequence : Int) }) :=
  (send_assigns_sequence sampleConn samplePacket true (Except.ok 9) (Except.ok ()) rfl).1
    rfl (by decide)

/-- Claim C8: for a valid packet sent without tracking, a successful OS
level send resolves the promise immediately with the packet that was
sent, no received packet, and the reported byte count, and stores no
pending command on the connection. -/
theorem send_untracked_resolves (conn : Connection) (packet : Packet) (bytes : Nat)
    (storeOutcome : Except BEError Unit) (hv : packet.valid = true) :
    (Socket.send conn packet false (Except.ok bytes) storeOutcome).stored = none ∧
    ∀ p, (Socket.send conn packet false (Except.ok bytes) storeOutcome).packetOut = some p →
      (Socket.send conn packet false (Except.ok bytes) storeOutcome).promise =
        PromiseState.resolved { bytes := bytes, sent := p, received := none } := by
  constructor
  · simp [Socket.send, hv]
  · intro p hp
    simp [Socket.send, hv] at hp ⊢
    rw [hp]

/-- Witness for C8 at a concrete untracked send. -/
theorem send_untracked_resolves_witness :
    (Socket.send sampleConn samplePacket false (Except.ok 9) (Except.ok ())).promise =
      PromiseState.resolved
        { bytes := 9, sent := { samplePacket with sequence := (sampleConn.sequence : Int) },
          received := none } :=
  (send_untracked_resolves sampleConn samplePacket 9 (Except.ok ()) rfl).2
    { samplePacket with sequence := (sampleConn.sequence : Int) } (by decide)

/-- Claim C9: when the underlying udp socket reports an error on a socket
that is still open, the handler clears the listening flag, emits that
error as an error event, kills every connection registered at that moment
with that error, and closes the socket. -/
theorem socket_error_full_shutdown (s : Socket) (err : BEError)
    (h : s.udpClosed = false) :
    (Socket.onError s err).1.listening = false ∧
    (Socket.onError s err).2.1 = [Event.error err] ∧
    (Socket.onError s err).1.udpClosed = true ∧
    (Socket.onError s err).2.2 = Except.ok () ∧
    ∀ id c, lookupConn s.connections id = some c →
      lookupConn (Socket.onError s err).1.connections id =
        some (Connection.kill c (some err)) := by
  refine ⟨?_, rfl, ?_, ?_, ?_⟩
  · simp [Socket.onError, Socket.close, dgramClose, h]
  · simp [Socket.onError, Socket.close, dgramClose, h]
  · simp [Socket.onError, Socket.close, dgramClose, h]
  · intro id c hc
    simp [Socket.onError, Socket.close, dgramClose, h, lookupConn_killAll, hc]

/-- Witness for C9 at a concrete open socket with one registered
connection. -/
theorem socket_error_full_shutdown_witness :
    lookupConn (Socket.onError sampleSocket (BEError.transportError 1)).1.connections
        (Connection.id sampleConn) =
      some (Connection.kill sampleConn (some (BEError.transportError 1))) :=
  (socket_error_full_shutdown sampleSocket (BEError.transportError 1) rfl).2.2.2.2
    (Connection.id sampleConn) sampleConn (by decide)

/-- Claim C10: with auto connect enabled and no duplicate registration,
connect is invoked immediately exactly when the socket is already
listening and is deferred to the listening event otherwise; a rejection
of the connect promise is emitted as an error event on the Socket while
the call still returns the connection, which is registered under its
id. -/
theorem connection_autoconnect (s : Socket) (details : ConnectionDetails)
    (out : Except BEError Unit)
    (h : lookupConn s.connections (hashAddress details.ip details.port) = none) :
    (s.listening = true →
      (Socket.connection s details true out).timing = ConnectTiming.immediate) ∧
    (s.listening = false →
      (Socket.connection s details true out).timing = ConnectTiming.deferred) ∧
    (∀ e, out = Except.error e →
      (Socket.connection s details true out).socketEvents = [Event.error e]) ∧
    (Socket.connection s details true out).result = Except.ok (newConnection details) ∧
    lookupConn (Socket.connection s details true out).state.connections
        (hashAddress details.ip details.port) = some (newConnection details) := by
  have hp : lookupConn s.connections (details.ip, details.port) = none := h
  refine ⟨?_, ?_, ?_, ?_, ?_⟩
  · intro hl
    simp [Socket.connection, Connection.id, newConnection, hashAddress, hp, hl]
  · intro hl
    simp [Socket.connection, Connection.id, newConnection, hashAddress, hp, hl]
  · intro e he
    subst he
    cases hl : s.listening <;>
      simp [Socket.connection, Connection.id, newConnection, hashAddress, hp, hl]
  · simp [Socket.connection, Connection.id, newConnection, hashAddress, hp]
  · simp [Socket.connection, Connection.id, newConnection, hashAddress, hp, lookupConn]

/-- Witness for C10 at a concrete listening socket whose connect attempt
rejects. -/
theorem connection_autoconnect_witness :
    (Socket.connection emptySocket sampleDetails true
        (Except.error (BEError.connectFailed 7))).socketEvents =
      [Event.error (BEError.connectFailed 7)] ∧
    (Socket.connection emptySocket sampleDetails true
        (Except.error (BEError.connectFailed 7))).result =
      Except.ok (newConnection sampleDetails) :=
  ⟨(connection_autoconnect emptySocket sampleDetails
      (Except.error (BEError.connectFailed 7)) rfl).2.2.1 (BEError.connectFailed 7) rfl,
   (connection_autoconnect emptySocket sampleDetails
      (Except.error (BEError.connectFailed 7)) rfl).2.2.2.1⟩

end Battleye
